import Mathlib

/-
  Verification development for the GRASS GIS raster cell-value routines
  (lib/gis/raster.c) and the history record store (lib/gis/history.c).

  Machine types are embedded shallowly:
  - CELL (32-bit signed int) as Int; its reserved null sentinel is the
    smallest 32-bit value.
  - FCELL / DCELL (float / double) as Option Rat: the reserved null bit
    pattern is taken as none, every other (finite, numeric) pattern as
    some q.  Floating-point rounding of finite values is out of scope:
    conversions between the numeric carriers are exact on Rat, and the
    float-to-int C cast is truncation toward zero.
  - RASTER_MAP_TYPE as Int with CELL_TYPE = 0, FCELL_TYPE = 1,
    DCELL_TYPE = 2, matching the header constants.
  A type-erased cell location (the void* in the C code) is a CellValue:
  the bytes of one element, readable at each kind.
-/

abbrev CELL := Int
abbrev FCELL := Option Rat
abbrev DCELL := Option Rat

def CELL_TYPE : Int := 0
def FCELL_TYPE : Int := 1
def DCELL_TYPE : Int := 2

/-- Modelled from the spec: the reserved "no data" sentinel for the
integer kind (the null codec, lib/gis/null_val.c, is not among the given
sources).  It is a fixed bit pattern distinct from ordinary values; the
reference environment uses the smallest 32-bit signed integer. -/
def cellNullValue : CELL := -(2 ^ 31)

/-- One type-erased cell location: the contents of the memory a void*
points at, tagged by the kind the bytes were written as. -/
inductive CellValue where
  | cv (v : CELL)
  | fv (v : FCELL)
  | dv (v : DCELL)

/-- Reading the location as a CELL (the C cast *((const CELL *)p)).
Junk value 0 for contents that were not written as this kind. -/
def asCELL : CellValue → CELL
  | .cv c => c
  | _ => 0

/-- Reading the location as an FCELL, for non-null contents. -/
def asFCELL : CellValue → Rat
  | .fv (some q) => q
  | _ => 0

/-- Reading the location as a DCELL, for non-null contents. -/
def asDCELL : CellValue → Rat
  | .dv (some q) => q
  | _ => 0

/-- Modelled from the spec: G_is_c_null_value tests the integer sentinel. -/
def G_is_c_null_value (c : CELL) : Bool := c = cellNullValue

/-- Modelled from the spec: G_is_f_null_value tests the reserved FCELL
bit pattern. -/
def G_is_f_null_value (f : FCELL) : Bool := f.isNone

/-- Modelled from the spec: G_is_d_null_value tests the reserved DCELL
bit pattern. -/
def G_is_d_null_value (d : DCELL) : Bool := d.isNone

/-- Modelled from the spec: G_is_null_value dispatches on the kind tag and
tests the kind's sentinel; an unrecognized tag is reported non-null (the
reference implementation warns and returns FALSE).  Contents written as a
different kind than the tag are outside the contract; the model reports
them non-null. -/
def G_is_null_value (v : CellValue) (data_type : Int) : Bool :=
  if data_type = CELL_TYPE then
    match v with
    | .cv c => G_is_c_null_value c
    | _ => false
  else if data_type = FCELL_TYPE then
    match v with
    | .fv f => G_is_f_null_value f
    | _ => false
  else if data_type = DCELL_TYPE then
    match v with
    | .dv d => G_is_d_null_value d
    | _ => false
  else false

/-- Modelled from the spec: G_set_null_value writes the kind's reserved
sentinel into the location; on an unrecognized kind the location is left
unchanged (the reference implementation only warns). -/
def G_set_null_value (old : CellValue) (data_type : Int) : CellValue :=
  if data_type = CELL_TYPE then .cv cellNullValue
  else if data_type = FCELL_TYPE then .fv none
  else if data_type = DCELL_TYPE then .dv none
  else old

/-- C cast of a (modelled, finite) floating value to a signed integer:
truncation toward zero. -/
def ctrunc (q : Rat) : Int := if q < 0 then ⌈q⌉ else ⌊q⌋

/-- G_raster_cmp from lib/gis/raster.c: null checks first (null on just
one side loses; the first operand null and the second not gives -1), then
a per-kind numeric comparison, falling through to 0 on an unrecognized
kind tag. -/
def G_raster_cmp (v1 v2 : CellValue) (data_type : Int) : Int :=
  if G_is_null_value v1 data_type then
    if G_is_null_value v2 data_type then 0 else -1
  else if G_is_null_value v2 data_type then 1
  else if data_type = CELL_TYPE then
    if asCELL v1 > asCELL v2 then 1
    else if asCELL v1 = asCELL v2 then 0
    else -1
  else if data_type = FCELL_TYPE then
    if asFCELL v1 > asFCELL v2 then 1
    else if asFCELL v1 = asFCELL v2 then 0
    else -1
  else if data_type = DCELL_TYPE then
    if asDCELL v1 > asDCELL v2 then 1
    else if asDCELL v1 = asDCELL v2 then 0
    else -1
  else 0

/-- G_set_raster_value_c from lib/gis/raster.c. -/
def G_set_raster_value_c (rast : CellValue) (cval : CELL) (data_type : Int) :
    CellValue :=
  if G_is_c_null_value cval then G_set_null_value rast data_type
  else if data_type = CELL_TYPE then .cv cval
  else if data_type = FCELL_TYPE then .fv (some (cval : Rat))
  else if data_type = DCELL_TYPE then .dv (some (cval : Rat))
  else rast

/-- G_set_raster_value_f from lib/gis/raster.c. -/
def G_set_raster_value_f (rast : CellValue) (fval : FCELL) (data_type : Int) :
    CellValue :=
  if G_is_f_null_value fval then G_set_null_value rast data_type
  else
    let q := fval.getD 0
    if data_type = CELL_TYPE then .cv (ctrunc q)
    else if data_type = FCELL_TYPE then .fv (some q)
    else if data_type = DCELL_TYPE then .dv (some q)
    else rast

/-- G_set_raster_value_d from lib/gis/raster.c. -/
def G_set_raster_value_d (rast : CellValue) (dval : DCELL) (data_type : Int) :
    CellValue :=
  if G_is_d_null_value dval then G_set_null_value rast data_type
  else
    let q := dval.getD 0
    if data_type = CELL_TYPE then .cv (ctrunc q)
    else if data_type = FCELL_TYPE then .fv (some q)
    else if data_type = DCELL_TYPE then .dv (some q)
    else rast

/-- G_get_raster_value_c from lib/gis/raster.c: CELL null sentinel on a
null source, per-kind conversion otherwise, 0 on an unrecognized kind. -/
def G_get_raster_value_c (rast : CellValue) (data_type : Int) : CELL :=
  if G_is_null_value rast data_type then cellNullValue
  else if data_type = CELL_TYPE then asCELL rast
  else if data_type = FCELL_TYPE then ctrunc (asFCELL rast)
  else if data_type = DCELL_TYPE then ctrunc (asDCELL rast)
  else 0

/-- G_get_raster_value_f from lib/gis/raster.c. -/
def G_get_raster_value_f (rast : CellValue) (data_type : Int) : FCELL :=
  if G_is_null_value rast data_type then none
  else if data_type = CELL_TYPE then some ((asCELL rast : Int) : Rat)
  else if data_type = FCELL_TYPE then some (asFCELL rast)
  else if data_type = DCELL_TYPE then some (asDCELL rast)
  else some 0

/-- G_get_raster_value_d from lib/gis/raster.c. -/
def G_get_raster_value_d (rast : CellValue) (data_type : Int) : DCELL :=
  if G_is_null_value rast data_type then none
  else if data_type = CELL_TYPE then some ((asCELL rast : Int) : Rat)
  else if data_type = FCELL_TYPE then some (asFCELL rast)
  else if data_type = DCELL_TYPE then some (asDCELL rast)
  else some 0

/-- The three recognized kind tags. -/
def kindOK (k : Int) : Prop :=
  k = CELL_TYPE ∨ k = FCELL_TYPE ∨ k = DCELL_TYPE

instance (k : Int) : Decidable (kindOK k) := by
  unfold kindOK
  infer_instance

/-- The location's contents were written as the kind the tag declares. -/
def matchesKind : CellValue → Int → Prop
  | .cv _, k => k = CELL_TYPE
  | .fv _, k => k = FCELL_TYPE
  | .dv _, k => k = DCELL_TYPE

/-- Spec-side numeric reading of a cell location, for stating the "compare
numerically per kind" and conversion clauses uniformly: the value as an
exact rational. -/
def cellQ : CellValue → Rat
  | .cv c => (c : Rat)
  | .fv f => f.getD 0
  | .dv d => d.getD 0

/-- Spec-side three-way numeric comparison on exact rationals. -/
def ratCmp (a b : Rat) : Int :=
  if a > b then 1 else if a = b then 0 else -1

/-- Spec-side "store through a truncating numeric cast at the destination
kind": truncation toward zero for the integer destination, exact value for
the floating destinations. -/
def storeCast (q : Rat) (k : Int) : CellValue :=
  if k = CELL_TYPE then .cv (ctrunc q)
  else if k = FCELL_TYPE then .fv (some q)
  else if k = DCELL_TYPE then .dv (some q)
  else .cv 0

theorem ctrunc_intCast (n : Int) : ctrunc ((n : Int) : Rat) = n := by
  unfold ctrunc
  split <;> simp

theorem is_null_cv (c : CELL) :
    G_is_null_value (.cv c) CELL_TYPE = G_is_c_null_value c := rfl

theorem is_null_fv (f : FCELL) :
    G_is_null_value (.fv f) FCELL_TYPE = G_is_f_null_value f := rfl

theorem is_null_dv (d : DCELL) :
    G_is_null_value (.dv d) DCELL_TYPE = G_is_d_null_value d := rfl

/-- C1 counterexample: with the integer kind, a null first operand and a
non-null second operand, G_raster_cmp returns -1 (LESS), not 1 (GREATER):
the null value sorts below, not above, every non-null value. -/
theorem raster_cmp_null_sorts_less_cex :
    G_raster_cmp (.cv cellNullValue) (.cv 0) CELL_TYPE = -1 ∧
    G_raster_cmp (.cv 0) (.cv cellNullValue) CELL_TYPE = 1 ∧
    ((-1 : Int) ≠ 1) := by
  refine ⟨by decide, by decide, by decide⟩

/-- C1 (amended): for every recognized kind and operands stored at that
kind, G_raster_cmp returns 0 when both values are null, -1 (LESS) when
only the first is null, 1 (GREATER) when only the second is null — the
null value sorts as LESS than any non-null value — and otherwise the
numeric three-way comparison of the two values. -/
theorem raster_cmp_null_ordering (k : Int) (hk : kindOK k)
    (v1 v2 : CellValue) (h1 : matchesKind v1 k) (h2 : matchesKind v2 k) :
    (G_is_null_value v1 k = true → G_is_null_value v2 k = true →
      G_raster_cmp v1 v2 k = 0) ∧
    (G_is_null_value v1 k = true → G_is_null_value v2 k = false →
      G_raster_cmp v1 v2 k = -1) ∧
    (G_is_null_value v1 k = false → G_is_null_value v2 k = true →
      G_raster_cmp v1 v2 k = 1) ∧
    (G_is_null_value v1 k = false → G_is_null_value v2 k = false →
      G_raster_cmp v1 v2 k = ratCmp (cellQ v1) (cellQ v2)) := by
  rcases hk with rfl | rfl | rfl <;>
    cases v1 <;> cases v2 <;>
      simp only [matchesKind, CELL_TYPE, FCELL_TYPE, DCELL_TYPE] at h1 h2 <;>
        try omega
  · -- CELL / CELL
    rename_i c1 c2
    refine ⟨?_, ?_, ?_, ?_⟩ <;> intro ha hb <;>
      simp_all [is_null_cv, G_is_c_null_value, G_raster_cmp, G_is_null_value,
        CELL_TYPE, FCELL_TYPE, DCELL_TYPE, cellQ, ratCmp, asCELL]
  · -- FCELL / FCELL
    rename_i f1 f2
    cases f1 <;> cases f2 <;>
      refine ⟨?_, ?_, ?_, ?_⟩ <;> intro ha hb <;>
        simp_all [is_null_fv, G_is_f_null_value, G_raster_cmp,
          G_is_null_value, FCELL_TYPE, CELL_TYPE, cellQ, ratCmp, asFCELL]
  · -- DCELL / DCELL
    rename_i d1 d2
    cases d1 <;> cases d2 <;>
      refine ⟨?_, ?_, ?_, ?_⟩ <;> intro ha hb <;>
        simp_all [is_null_dv, G_is_d_null_value, G_raster_cmp,
          G_is_null_value, DCELL_TYPE, CELL_TYPE, FCELL_TYPE, cellQ, ratCmp,
          asDCELL]

theorem raster_cmp_null_ordering_witness :
    (G_is_null_value (.cv cellNullValue) CELL_TYPE = true →
      G_is_null_value (.cv 0) CELL_TYPE = true →
      G_raster_cmp (.cv cellNullValue) (.cv 0) CELL_TYPE = 0) ∧
    (G_is_null_value (.cv cellNullValue) CELL_TYPE = true →
      G_is_null_value (.cv 0) CELL_TYPE = false →
      G_raster_cmp (.cv cellNullValue) (.cv 0) CELL_TYPE = -1) ∧
    (G_is_null_value (.cv cellNullValue) CELL_TYPE = false →
      G_is_null_value (.cv 0) CELL_TYPE = true →
      G_raster_cmp (.cv cellNullValue) (.cv 0) CELL_TYPE = 1) ∧
    (G_is_null_value (.cv cellNullValue) CELL_TYPE = false →
      G_is_null_value (.cv 0) CELL_TYPE = false →
      G_raster_cmp (.cv cellNullValue) (.cv 0) CELL_TYPE =
        ratCmp (cellQ (.cv cellNullValue)) (cellQ (.cv 0))) :=
  raster_cmp_null_ordering CELL_TYPE (by decide) (.cv cellNullValue) (.cv 0)
    rfl rfl

/-- C2: each set_from operation first tests its own kind's null sentinel
on the source value: a null source makes the destination the destination
kind's sentinel (null propagates across kinds, no numeric conversion);
any other source value is stored through the truncating numeric cast at
the destination kind. -/
theorem set_raster_value_null_propagation (k : Int) (hk : kindOK k)
    (rast : CellValue) (c : CELL) (f : FCELL) (d : DCELL) :
    (G_is_c_null_value c = true →
      G_set_raster_value_c rast c k = G_set_null_value rast k) ∧
    (G_is_c_null_value c = false →
      G_set_raster_value_c rast c k = storeCast ((c : Int) : Rat) k) ∧
    (G_is_f_null_value f = true →
      G_set_raster_value_f rast f k = G_set_null_value rast k) ∧
    (G_is_f_null_value f = false →
      G_set_raster_value_f rast f k = storeCast (f.getD 0) k) ∧
    (G_is_d_null_value d = true →
      G_set_raster_value_d rast d k = G_set_null_value rast k) ∧
    (G_is_d_null_value d = false →
      G_set_raster_value_d rast d k = storeCast (d.getD 0) k) ∧
    (G_is_null_value (G_set_null_value rast k) k = true) := by
  rcases hk with rfl | rfl | rfl <;> cases f <;> cases d <;>
    refine ⟨?_, ?_, ?_, ?_, ?_, ?_, ?_⟩ <;>
      first
        | (intro ha
           simp_all [G_set_raster_value_c, G_set_raster_value_f,
             G_set_raster_value_d, G_set_null_value, G_is_null_value,
             G_is_c_null_value, G_is_f_null_value, G_is_d_null_value,
             storeCast, ctrunc_intCast, CELL_TYPE, FCELL_TYPE, DCELL_TYPE])
        | simp [G_set_null_value, G_is_null_value, G_is_c_null_value,
            G_is_f_null_value, G_is_d_null_value, CELL_TYPE, FCELL_TYPE,
            DCELL_TYPE]

theorem set_raster_value_null_propagation_witness :
    (G_is_c_null_value cellNullValue = true →
      G_set_raster_value_c (.fv (some 7)) cellNullValue FCELL_TYPE =
        G_set_null_value (.fv (some 7)) FCELL_TYPE) ∧
    (G_is_c_null_value cellNullValue = false →
      G_set_raster_value_c (.fv (some 7)) cellNullValue FCELL_TYPE =
        storeCast ((cellNullValue : Int) : Rat) FCELL_TYPE) ∧
    (G_is_f_null_value (some 2) = true →
      G_set_raster_value_f (.fv (some 7)) (some 2) FCELL_TYPE =
        G_set_null_value (.fv (some 7)) FCELL_TYPE) ∧
    (G_is_f_null_value (some 2) = false →
      G_set_raster_value_f (.fv (some 7)) (some 2) FCELL_TYPE =
        storeCast ((some (2 : Rat)).getD 0) FCELL_TYPE) ∧
    (G_is_d_null_value none = true →
      G_set_raster_value_d (.fv (some 7)) none FCELL_TYPE =
        G_set_null_value (.fv (some 7)) FCELL_TYPE) ∧
    (G_is_d_null_value none = false →
      G_set_raster_value_d (.fv (some 7)) none FCELL_TYPE =
        storeCast ((none : DCELL).getD 0) FCELL_TYPE) ∧
    (G_is_null_value (G_set_null_value (.fv (some 7)) FCELL_TYPE)
      FCELL_TYPE = true) :=
  set_raster_value_null_propagation FCELL_TYPE (by decide) (.fv (some 7))
    cellNullValue (some 2) none

/-- C3: a get_as operation on a location holding its kind's null sentinel
returns the result representation's null sentinel (integer sentinel for
get_as_integer, reserved pattern for the float forms); on a non-null
location it returns the stored value through the truncating numeric
cast into the result representation. -/
theorem get_raster_value_null_and_cast (k : Int) (hk : kindOK k)
    (v : CellValue) (hm : matchesKind v k) :
    (G_is_null_value v k = true →
      G_get_raster_value_c v k = cellNullValue ∧
      G_get_raster_value_f v k = none ∧
      G_get_raster_value_d v k = none) ∧
    (G_is_null_value v k = false →
      G_get_raster_value_c v k = ctrunc (cellQ v) ∧
      G_get_raster_value_f v k = some (cellQ v) ∧
      G_get_raster_value_d v k = some (cellQ v)) := by
  rcases hk with rfl | rfl | rfl <;> cases v <;>
    simp only [matchesKind, CELL_TYPE, FCELL_TYPE, DCELL_TYPE] at hm <;>
      try omega
  · rename_i c
    refine ⟨?_, ?_⟩ <;> intro ha <;>
      simp_all [G_get_raster_value_c, G_get_raster_value_f,
        G_get_raster_value_d, is_null_cv, G_is_c_null_value, cellQ, asCELL,
        ctrunc_intCast, CELL_TYPE, FCELL_TYPE, DCELL_TYPE]
  · rename_i f
    cases f <;>
      refine ⟨?_, ?_⟩ <;> intro ha <;>
        simp_all [G_get_raster_value_c, G_get_raster_value_f,
          G_get_raster_value_d, is_null_fv, G_is_f_null_value, cellQ,
          asFCELL, CELL_TYPE, FCELL_TYPE, DCELL_TYPE, G_is_null_value]
  · rename_i d
    cases d <;>
      refine ⟨?_, ?_⟩ <;> intro ha <;>
        simp_all [G_get_raster_value_c, G_get_raster_value_f,
          G_get_raster_value_d, is_null_dv, G_is_d_null_value, cellQ,
          asDCELL, CELL_TYPE, FCELL_TYPE, DCELL_TYPE, G_is_null_value]

theorem get_raster_value_null_and_cast_witness :
    (G_is_null_value (.dv (some 3)) DCELL_TYPE = true →
      G_get_raster_value_c (.dv (some 3)) DCELL_TYPE = cellNullValue ∧
      G_get_raster_value_f (.dv (some 3)) DCELL_TYPE = none ∧
      G_get_raster_value_d (.dv (some 3)) DCELL_TYPE = none) ∧
    (G_is_null_value (.dv (some 3)) DCELL_TYPE = false →
      G_get_raster_value_c (.dv (some 3)) DCELL_TYPE =
        ctrunc (cellQ (.dv (some 3))) ∧
      G_get_raster_value_f (.dv (some 3)) DCELL_TYPE =
        some (cellQ (.dv (some 3))) ∧
      G_get_raster_value_d (.dv (some 3)) DCELL_TYPE =
        some (cellQ (.dv (some 3)))) :=
  get_raster_value_null_and_cast DCELL_TYPE (by decide) (.dv (some 3)) rfl

/-- C4: on a kind tag that is none of the three recognized kinds, with
both operands non-null, G_raster_cmp falls through its switch and returns
0 (the EQUAL result), and G_get_raster_value_c falls through and returns
0, instead of failing. -/
theorem unrecognized_kind_returns_zero (k : Int) (hk : ¬ kindOK k)
    (v1 v2 : CellValue) (h1 : G_is_null_value v1 k = false)
    (h2 : G_is_null_value v2 k = false) :
    G_raster_cmp v1 v2 k = 0 ∧ G_get_raster_value_c v1 k = 0 := by
  unfold kindOK at hk
  push_neg at hk
  obtain ⟨hk0, hk1, hk2⟩ := hk
  constructor
  · simp [G_raster_cmp, h1, h2, hk0, hk1, hk2]
  · simp [G_get_raster_value_c, h1, hk0, hk1, hk2]

theorem unrecognized_kind_returns_zero_witness :
    G_raster_cmp (.cv 1) (.cv 2) (3 : Int) = 0 ∧
    G_get_raster_value_c (.cv 1) (3 : Int) = 0 :=
  unrecognized_kind_returns_zero 3 (by decide) (.cv 1) (.cv 2) rfl rfl

/-
  History record store, lib/gis/history.c.  Strings are modelled as lists
  of characters (C strings without the terminating NUL); the on-disk
  resource is a flat character stream, a successfully opened resource is
  some stream and a failed open is none.  The fixed-capacity comment
  array edhist[MAXEDLINES][RECORD_LEN] is modelled as a total function
  from index to line so that out-of-range writes would be observable.
-/

abbrev Str := List Char

def MAXEDLINES : Nat := 50
def RECORD_LEN : Nat := 80

/-- struct History from the gis.h header: eight fixed text fields, the
comment-line array and its count. -/
structure History where
  mapid : Str
  title : Str
  mapset : Str
  creator : Str
  maptype : Str
  datsrc_1 : Str
  datsrc_2 : Str
  keywrd : Str
  edhist : Nat → Str
  edlinecnt : Nat

/-- The all-zero record G_zero produces: every field an empty string,
every comment slot empty, count 0. -/
def zeroHistory : History :=
  ⟨[], [], [], [], [], [], [], [], fun _ => [], 0⟩

/-- Modelled from the spec: G_getl (buffered line input, not among the
given sources).  At end of stream it reports failure; otherwise it
consumes the next newline-terminated line and returns at most n - 1 of
its characters, the newline stripped. -/
def G_getl (n : Nat) (buf : List Char) : Option (Str × List Char) :=
  if buf.isEmpty then none
  else
    some ((buf.takeWhile (fun c => c != '\n')).take (n - 1),
      (buf.drop (buf.takeWhile (fun c => c != '\n')).length).drop 1)

/-- An ASCII byte that G_ascii_check keeps unchanged: printable (0x20 to
0x7e) or tab. -/
def printableChar (c : Char) : Bool :=
  (32 ≤ c.toNat && c.toNat ≤ 126) || c.toNat = 9

/-- Modelled from the spec: G_ascii_check sanitizes a field, replacing
every non-printable byte with a safe placeholder. -/
def G_ascii_check (s : Str) : Str :=
  s.map (fun c => if printableChar c then c else '-')

/-- The stream holds at least n more G_getl lines (the n mandatory reads
all succeed). -/
def hasLines : Nat → List Char → Bool
  | 0, _ => true
  | n + 1, buf =>
    match G_getl RECORD_LEN buf with
    | none => false
    | some (_, rest) => hasLines n rest

/-- The comment-reading loop of G_read_history: while the count is below
MAXEDLINES and a line can be read, sanitize it into the next slot. -/
def readEdLoop (buf : List Char) (ed : Nat → Str) (cnt : Nat) :
    (Nat → Str) × Nat :=
  if cnt < MAXEDLINES then
    match G_getl RECORD_LEN buf with
    | none => (ed, cnt)
    | some (l, rest) =>
      readEdLoop rest (Function.update ed cnt (G_ascii_check l)) (cnt + 1)
  else (ed, cnt)
termination_by MAXEDLINES - cnt

/-- G_read_history from lib/gis/history.c: zero the record, fail if the
resource cannot be opened, read the eight mandatory lines (failing on a
missing one), then read comment lines up to capacity. -/
def G_read_history (file : Option (List Char)) : Int × History :=
  let hist := zeroHistory
  match file with
  | none => (-1, hist)
  | some buf =>
    match G_getl RECORD_LEN buf with
    | none => (-1, hist)
    | some (l1, b1) =>
      let hist := { hist with mapid := G_ascii_check l1 }
      match G_getl RECORD_LEN b1 with
      | none => (-1, hist)
      | some (l2, b2) =>
        let hist := { hist with title := G_ascii_check l2 }
        match G_getl RECORD_LEN b2 with
        | none => (-1, hist)
        | some (l3, b3) =>
          let hist := { hist with mapset := G_ascii_check l3 }
          match G_getl RECORD_LEN b3 with
          | none => (-1, hist)
          | some (l4, b4) =>
            let hist := { hist with creator := G_ascii_check l4 }
            match G_getl RECORD_LEN b4 with
            | none => (-1, hist)
            | some (l5, b5) =>
              let hist := { hist with maptype := G_ascii_check l5 }
              match G_getl RECORD_LEN b5 with
              | none => (-1, hist)
              | some (l6, b6) =>
                let hist := { hist with datsrc_1 := G_ascii_check l6 }
                match G_getl RECORD_LEN b6 with
                | none => (-1, hist)
                | some (l7, b7) =>
                  let hist := { hist with datsrc_2 := G_ascii_check l7 }
                  match G_getl RECORD_LEN b7 with
                  | none => (-1, hist)
                  | some (l8, b8) =>
                    let hist := { hist with keywrd := G_ascii_check l8 }
                    let r := readEdLoop b8 hist.edhist 0
                    (0, { hist with edhist := r.1, edlinecnt := r.2 })

/-- The comment lines the writer emits: edhist[i] ++ newline for i from c
to cnt - 1. -/
def writeEd (ed : Nat → Str) (i cnt : Nat) : List Char :=
  if i < cnt then (ed i ++ ['\n']) ++ writeEd ed (i + 1) cnt else []
termination_by cnt - i

/-- The byte stream G_write_history emits: the eight fields as eight
newline-terminated lines in fixed order, then the comment lines. -/
def historyFile (hist : History) : List Char :=
  (hist.mapid ++ ['\n']) ++
    ((hist.title ++ ['\n']) ++
      ((hist.mapset ++ ['\n']) ++
        ((hist.creator ++ ['\n']) ++
          ((hist.maptype ++ ['\n']) ++
            ((hist.datsrc_1 ++ ['\n']) ++
              ((hist.datsrc_2 ++ ['\n']) ++
                ((hist.keywrd ++ ['\n']) ++
                  writeEd hist.edhist 0 hist.edlinecnt)))))))

/-- G_write_history from lib/gis/history.c: fail if the resource cannot
be created, else emit the record.  The Bool stands for whether
G_fopen_new succeeds. -/
def G_write_history (canCreate : Bool) (hist : History) :
    Int × List Char :=
  if canCreate then (0, historyFile hist) else (-1, [])

/-- One iteration of the wrapping loop body: strncpy 68 characters
starting at offset j into the next comment slot, append the backslash
continuation marker, bump the count. -/
def wrapStep (cmdlin : Str) (j : Nat) (hist : History) : History :=
  { hist with
    edhist := Function.update hist.edhist hist.edlinecnt
      (((cmdlin.drop j).take 68) ++ ['\\']),
    edlinecnt := hist.edlinecnt + 1 }

/-- The multi-line wrapping loop of G_command_history: while more than 70
characters remain, store a 68-character fragment with a trailing
backslash continuation marker, bailing out with result 2 when the array
fills; then store the remainder, if any, without a marker. -/
def cmdWrapLoop (cmdlin : Str) (j : Nat) (hist : History) : Int × History :=
  if cmdlin.length - j > 70 then
    if (wrapStep cmdlin j hist).edlinecnt > MAXEDLINES - 2 then
      (2, wrapStep cmdlin j hist)
    else cmdWrapLoop cmdlin (j + 68) (wrapStep cmdlin j hist)
  else if cmdlin.length - j > 0 then
    (0, { hist with
      edhist := Function.update hist.edhist hist.edlinecnt (cmdlin.drop j),
      edlinecnt := hist.edlinecnt + 1 })
  else (0, hist)
termination_by cmdlin.length - j
decreasing_by simp [wrapStep]; omega

/-- The blank separator line G_command_history appends when prior
comments exist. -/
def blankSep (hist : History) : History :=
  if hist.edlinecnt > 0 then
    { hist with
      edhist := Function.update hist.edhist hist.edlinecnt [],
      edlinecnt := hist.edlinecnt + 1 }
  else hist

/-- G_command_history from lib/gis/history.c, with the reconstructed
command line (G_recreate_command) passed as a parameter: refuse with 1
when the log is within two lines of capacity, append a blank separator
line if prior comments exist, then store the command on one line when it
is short or hard-wrap it. -/
def G_command_history (cmdlin : Str) (hist : History) : Int × History :=
  if hist.edlinecnt > MAXEDLINES - 2 then (1, hist)
  else if cmdlin.length < 70 then
    (0, { blankSep hist with
      edhist := Function.update (blankSep hist).edhist
        (blankSep hist).edlinecnt cmdlin,
      edlinecnt := (blankSep hist).edlinecnt + 1 })
  else cmdWrapLoop cmdlin 0 (blankSep hist)

theorem wrapStep_edlinecnt (cmdlin : Str) (j : Nat) (hist : History) :
    (wrapStep cmdlin j hist).edlinecnt = hist.edlinecnt + 1 := rfl

theorem wrapStep_edhist (cmdlin : Str) (j : Nat) (hist : History) :
    (wrapStep cmdlin j hist).edhist =
      Function.update hist.edhist hist.edlinecnt
        (((cmdlin.drop j).take 68) ++ ['\\']) := rfl

theorem blankSep_edlinecnt (hist : History) :
    (blankSep hist).edlinecnt =
      if hist.edlinecnt > 0 then hist.edlinecnt + 1 else hist.edlinecnt := by
  unfold blankSep
  split <;> rfl

theorem blankSep_edhist_ne (hist : History) (i : Nat)
    (hi : i ≠ hist.edlinecnt) :
    (blankSep hist).edhist i = hist.edhist i := by
  unfold blankSep
  split
  · exact Function.update_noteq hi _ _
  · rfl

/-- C5: a command-line append on a record whose comment log already holds
MAXEDLINES - 1 entries returns the "no room, nothing added" result 1 and
leaves the whole record, comment log and count included, unchanged. -/
theorem command_history_full_no_room (cmdlin : Str) (hist : History)
    (h : hist.edlinecnt = MAXEDLINES - 1) :
    G_command_history cmdlin hist = (1, hist) := by
  have h50 : MAXEDLINES = 50 := rfl
  unfold G_command_history
  rw [if_pos (by omega)]

theorem command_history_full_no_room_witness :
    G_command_history ['l', 's'] { zeroHistory with edlinecnt := 49 } =
      (1, { zeroHistory with edlinecnt := 49 }) :=
  command_history_full_no_room ['l', 's']
    { zeroHistory with edlinecnt := 49 } (by decide)

theorem cmdWrapLoop_invariant (cmdlin : Str) :
    ∀ n j (hist : History), cmdlin.length - j ≤ n →
      hist.edlinecnt + 1 ≤ MAXEDLINES →
      (cmdWrapLoop cmdlin j hist).2.edlinecnt ≤ MAXEDLINES ∧
      ∀ i, MAXEDLINES ≤ i →
        (cmdWrapLoop cmdlin j hist).2.edhist i = hist.edhist i := by
  have h50 : MAXEDLINES = 50 := rfl
  intro n
  induction n with
  | zero =>
    intro j hist hn h
    rw [cmdWrapLoop, if_neg (by omega), if_neg (by omega)]
    exact ⟨(by omega : hist.edlinecnt ≤ MAXEDLINES), fun i _ => rfl⟩
  | succ n ih =>
    intro j hist hn h
    rw [cmdWrapLoop]
    by_cases h1 : cmdlin.length - j > 70
    · rw [if_pos h1]
      by_cases h2 : (wrapStep cmdlin j hist).edlinecnt > MAXEDLINES - 2
      · rw [if_pos h2]
        refine ⟨by simp [wrapStep_edlinecnt]; omega, ?_⟩
        intro i hi
        simp only [wrapStep_edhist]
        exact Function.update_noteq (by omega) _ _
      · rw [if_neg h2]
        rw [wrapStep_edlinecnt] at h2
        obtain ⟨ha, hb⟩ := ih (j + 68) (wrapStep cmdlin j hist)
          (by omega) (by rw [wrapStep_edlinecnt]; omega)
        refine ⟨ha, ?_⟩
        intro i hi
        rw [hb i hi, wrapStep_edhist]
        exact Function.update_noteq (by omega) _ _
    · rw [if_neg h1]
      by_cases h2 : cmdlin.length - j > 0
      · rw [if_pos h2]
        refine ⟨by simp; omega, ?_⟩
        intro i hi
        simp only
        exact Function.update_noteq (by omega) _ _
      · rw [if_neg h2]
        exact ⟨(by omega : hist.edlinecnt ≤ MAXEDLINES), fun i _ => rfl⟩

/-- C10: starting from any record with a comment count at most
MAXEDLINES, G_command_history keeps the count at most MAXEDLINES on
every return path, and never touches a comment slot at an index at or
beyond MAXEDLINES. -/
theorem command_history_capacity_invariant (cmdlin : Str) (hist : History)
    (h : hist.edlinecnt ≤ MAXEDLINES) :
    (G_command_history cmdlin hist).2.edlinecnt ≤ MAXEDLINES ∧
    ∀ i, MAXEDLINES ≤ i →
      (G_command_history cmdlin hist).2.edhist i = hist.edhist i := by
  have h50 : MAXEDLINES = 50 := rfl
  unfold G_command_history
  by_cases h1 : hist.edlinecnt > MAXEDLINES - 2
  · rw [if_pos h1]
    exact ⟨(by omega : hist.edlinecnt ≤ MAXEDLINES), fun i _ => rfl⟩
  · rw [if_neg h1]
    have hb1 : (blankSep hist).edlinecnt ≤ hist.edlinecnt + 1 := by
      rw [blankSep_edlinecnt]
      split <;> omega
    by_cases h2 : cmdlin.length < 70
    · rw [if_pos h2]
      refine ⟨by simp; omega, ?_⟩
      intro i hi
      simp only
      rw [Function.update_noteq (by omega)]
      exact blankSep_edhist_ne hist i (by omega)
    · rw [if_neg h2]
      obtain ⟨ha, hb⟩ := cmdWrapLoop_invariant cmdlin cmdlin.length 0
        (blankSep hist) (by omega) (by omega)
      refine ⟨ha, ?_⟩
      intro i hi
      rw [hb i hi]
      exact blankSep_edhist_ne hist i (by omega)

theorem command_history_capacity_invariant_witness :
    zeroHistory.edlinecnt ≤ MAXEDLINES ∧
    ((G_command_history ['g'] zeroHistory).2.edlinecnt ≤ MAXEDLINES ∧
      ∀ i, MAXEDLINES ≤ i →
        (G_command_history ['g'] zeroHistory).2.edhist i =
          zeroHistory.edhist i) :=
  ⟨by decide, command_history_capacity_invariant ['g'] zeroHistory (by decide)⟩

theorem getLast_append_marker (l : Str) (a : Char) :
    (l ++ [a]).getLast? = some a := by
  induction l with
  | nil => rfl
  | cons x xs ih =>
    rw [List.cons_append, List.getLast?_cons, ih]
    rfl

theorem dropLast_append_marker (l : Str) (a : Char) :
    (l ++ [a]).dropLast = l := by
  induction l with
  | nil => rfl
  | cons x xs ih => cases xs <;> simp_all

/-- C6: appending a 200-character command line with enough room wraps it
into exactly three stored fragments: two 68-character fragments each
ending in the backslash continuation marker and a final 64-character
fragment stored without a marker; stripping the markers and
concatenating the fragments gives back the original command line. -/
theorem command_history_wrap_200 (cmdlin : Str) (hist : History)
    (hlen : cmdlin.length = 200) (hroom : hist.edlinecnt ≤ 45) :
    (G_command_history cmdlin hist).1 = 0 ∧
    (G_command_history cmdlin hist).2.edlinecnt =
      (blankSep hist).edlinecnt + 3 ∧
    (G_command_history cmdlin hist).2.edhist ((blankSep hist).edlinecnt) =
      cmdlin.take 68 ++ ['\\'] ∧
    (G_command_history cmdlin hist).2.edhist
        ((blankSep hist).edlinecnt + 1) =
      (cmdlin.drop 68).take 68 ++ ['\\'] ∧
    (G_command_history cmdlin hist).2.edhist
        ((blankSep hist).edlinecnt + 2) =
      cmdlin.drop 136 ∧
    (cmdlin.take 68 ++ ['\\']).getLast? = some '\\' ∧
    ((cmdlin.drop 68).take 68 ++ ['\\']).getLast? = some '\\' ∧
    (cmdlin.take 68 ++ ['\\']).dropLast ++
      (((cmdlin.drop 68).take 68 ++ ['\\']).dropLast ++ cmdlin.drop 136) =
      cmdlin := by
  have h50 : MAXEDLINES = 50 := rfl
  have hs : (blankSep hist).edlinecnt ≤ 46 := by
    rw [blankSep_edlinecnt]
    split <;> omega
  have hmain : G_command_history cmdlin hist =
      cmdWrapLoop cmdlin 0 (blankSep hist) := by
    unfold G_command_history
    rw [if_neg (by omega), if_neg (by omega)]
  have key : cmdWrapLoop cmdlin 0 (blankSep hist) =
      (0, { wrapStep cmdlin 68 (wrapStep cmdlin 0 (blankSep hist)) with
        edhist := Function.update
          (wrapStep cmdlin 68 (wrapStep cmdlin 0 (blankSep hist))).edhist
          (wrapStep cmdlin 68 (wrapStep cmdlin 0 (blankSep hist))).edlinecnt
          (cmdlin.drop 136),
        edlinecnt :=
          (wrapStep cmdlin 68
            (wrapStep cmdlin 0 (blankSep hist))).edlinecnt + 1 }) := by
    rw [cmdWrapLoop, if_pos (by omega),
      if_neg (by simp only [wrapStep_edlinecnt]; omega)]
    norm_num
    rw [cmdWrapLoop, if_pos (by omega),
      if_neg (by simp only [wrapStep_edlinecnt]; omega)]
    norm_num
    rw [cmdWrapLoop, if_neg (by omega), if_pos (by omega)]
  rw [hmain, key]
  refine ⟨rfl, ?_, ?_, ?_, ?_, ?_, ?_, ?_⟩
  · simp only [wrapStep_edlinecnt]
  · simp only [wrapStep_edhist, wrapStep_edlinecnt]
    rw [Function.update_noteq (by omega), Function.update_noteq (by omega),
      Function.update_same, List.drop_zero]
  · simp only [wrapStep_edhist, wrapStep_edlinecnt]
    rw [Function.update_noteq (by omega), Function.update_same]
  · simp only [wrapStep_edhist, wrapStep_edlinecnt]
    rw [Function.update_same]
  · exact getLast_append_marker _ _
  · exact getLast_append_marker _ _
  · rw [dropLast_append_marker, dropLast_append_marker]
    have h3 : cmdlin.drop 136 = (cmdlin.drop 68).drop 68 := by
      rw [List.drop_drop]
    rw [h3, List.take_append_drop, List.take_append_drop]

theorem command_history_wrap_200_witness :
    (G_command_history (List.replicate 200 'x') zeroHistory).1 = 0 ∧
    (G_command_history (List.replicate 200 'x') zeroHistory).2.edlinecnt =
      (blankSep zeroHistory).edlinecnt + 3 ∧
    (G_command_history (List.replicate 200 'x') zeroHistory).2.edhist
        ((blankSep zeroHistory).edlinecnt) =
      (List.replicate 200 'x').take 68 ++ ['\\'] ∧
    (G_command_history (List.replicate 200 'x') zeroHistory).2.edhist
        ((blankSep zeroHistory).edlinecnt + 1) =
      ((List.replicate 200 'x').drop 68).take 68 ++ ['\\'] ∧
    (G_command_history (List.replicate 200 'x') zeroHistory).2.edhist
        ((blankSep zeroHistory).edlinecnt + 2) =
      (List.replicate 200 'x').drop 136 ∧
    ((List.replicate 200 'x').take 68 ++ ['\\']).getLast? = some '\\' ∧
    (((List.replicate 200 'x').drop 68).take 68 ++ ['\\']).getLast? =
      some '\\' ∧
    ((List.replicate 200 'x').take 68 ++ ['\\']).dropLast ++
      ((((List.replicate 200 'x').drop 68).take 68 ++ ['\\']).dropLast ++
        (List.replicate 200 'x').drop 136) =
      List.replicate 200 'x' :=
  command_history_wrap_200 (List.replicate 200 'x') zeroHistory
    (by rw [List.length_replicate]) (by decide)

theorem readEdLoop_cnt_le :
    ∀ n (buf : List Char) (ed : Nat → Str) (cnt : Nat),
      MAXEDLINES - cnt ≤ n → cnt ≤ MAXEDLINES →
      (readEdLoop buf ed cnt).2 ≤ MAXEDLINES := by
  have h50 : MAXEDLINES = 50 := rfl
  intro n
  induction n with
  | zero =>
    intro buf ed cnt hn h
    rw [readEdLoop, if_neg (by omega)]
    exact (h : cnt ≤ MAXEDLINES)
  | succ n ih =>
    intro buf ed cnt hn h
    rw [readEdLoop]
    by_cases hc : cnt < MAXEDLINES
    · rw [if_pos hc]
      cases hg : G_getl RECORD_LEN buf with
      | none => exact (h : cnt ≤ MAXEDLINES)
      | some p =>
        obtain ⟨l, rest⟩ := p
        exact ih rest (Function.update ed cnt (G_ascii_check l)) (cnt + 1)
          (by omega) (by omega)
    · rw [if_neg hc]
      exact (h : cnt ≤ MAXEDLINES)

theorem G_read_history_some (buf : List Char) :
    ((G_read_history (some buf)).1 = if hasLines 8 buf then 0 else -1) ∧
    (G_read_history (some buf)).2.edlinecnt ≤ MAXEDLINES := by
  have h50 : MAXEDLINES = 50 := rfl
  unfold G_read_history
  cases h1 : G_getl RECORD_LEN buf with
  | none => exact ⟨by simp [hasLines, h1], by simp [h1, zeroHistory, MAXEDLINES]⟩
  | some p1 =>
  obtain ⟨l1, b1⟩ := p1
  cases h2 : G_getl RECORD_LEN b1 with
  | none => exact ⟨by simp [hasLines, h1, h2], by simp [h1, h2, zeroHistory, MAXEDLINES]⟩
  | some p2 =>
  obtain ⟨l2, b2⟩ := p2
  cases h3 : G_getl RECORD_LEN b2 with
  | none => exact ⟨by simp [hasLines, h1, h2, h3], by simp [h1, h2, h3, zeroHistory, MAXEDLINES]⟩
  | some p3 =>
  obtain ⟨l3, b3⟩ := p3
  cases h4 : G_getl RECORD_LEN b3 with
  | none => exact ⟨by simp [hasLines, h1, h2, h3, h4], by simp [h1, h2, h3, h4, zeroHistory, MAXEDLINES]⟩
  | some p4 =>
  obtain ⟨l4, b4⟩ := p4
  cases h5 : G_getl RECORD_LEN b4 with
  | none => exact ⟨by simp [hasLines, h1, h2, h3, h4, h5], by simp [h1, h2, h3, h4, h5, zeroHistory, MAXEDLINES]⟩
  | some p5 =>
  obtain ⟨l5, b5⟩ := p5
  cases h6 : G_getl RECORD_LEN b5 with
  | none => exact ⟨by simp [hasLines, h1, h2, h3, h4, h5, h6], by simp [h1, h2, h3, h4, h5, h6, zeroHistory, MAXEDLINES]⟩
  | some p6 =>
  obtain ⟨l6, b6⟩ := p6
  cases h7 : G_getl RECORD_LEN b6 with
  | none => exact ⟨by simp [hasLines, h1, h2, h3, h4, h5, h6, h7], by simp [h1, h2, h3, h4, h5, h6, h7, zeroHistory, MAXEDLINES]⟩
  | some p7 =>
  obtain ⟨l7, b7⟩ := p7
  cases h8 : G_getl RECORD_LEN b7 with
  | none =>
    exact ⟨by simp [hasLines, h1, h2, h3, h4, h5, h6, h7, h8],
      by simp [h1, h2, h3, h4, h5, h6, h7, h8, zeroHistory, MAXEDLINES]⟩
  | some p8 =>
  obtain ⟨l8, b8⟩ := p8
  constructor
  · simp [hasLines, h1, h2, h3, h4, h5, h6, h7, h8]
  · simp only [h1, h2, h3, h4, h5, h6, h7, h8]
    exact readEdLoop_cnt_le MAXEDLINES b8 _ 0 (by omega) (by omega)

/-- C7: reading fails with -1 exactly when the resource cannot be opened
or one of the eight mandatory header lines is missing; whenever the
eight mandatory lines are present it returns 0, even when more comment
lines follow than the log can hold — the comment count never exceeds
MAXEDLINES, the extra lines being silently dropped. -/
theorem read_history_failure_modes :
    (G_read_history none).1 = -1 ∧
    (∀ buf, (G_read_history (some buf)).1 =
      if hasLines 8 buf then 0 else -1) ∧
    (∀ file, (G_read_history file).2.edlinecnt ≤ MAXEDLINES) := by
  refine ⟨rfl, fun buf => (G_read_history_some buf).1, ?_⟩
  intro file
  cases file with
  | none => decide
  | some buf => exact (G_read_history_some buf).2

/-- C8 counterexample: a one-line resource makes G_read_history fail with
-1, yet the returned record is not free of partially-read data: the first
field holds the line that was read before the failure point. -/
theorem read_history_partial_record_cex :
    (G_read_history (some ['a', 'b', 'c', '\n'])).1 = -1 ∧
    (G_read_history (some ['a', 'b', 'c', '\n'])).2.mapid = ['a', 'b', 'c'] ∧
    ['a', 'b', 'c'] ≠ ([] : Str) := by
  refine ⟨by decide, by decide, by decide⟩

/-- C8 (amended): a failed read returns -1 and signals invalidity only
through that return value; the record, zeroed at entry, keeps the fields
read before the failure point — failing at the second mandatory line
leaves the first field holding the sanitized first line and every other
field empty. -/
theorem read_history_partial_record (buf : List Char) (l : Str)
    (b1 : List Char) (hg1 : G_getl RECORD_LEN buf = some (l, b1))
    (hg2 : G_getl RECORD_LEN b1 = none) :
    G_read_history (some buf) =
      (-1, { zeroHistory with mapid := G_ascii_check l }) := by
  unfold G_read_history
  simp only [hg1, hg2]

theorem read_history_partial_record_witness :
    G_read_history (some ['a', 'b', 'c', '\n']) =
      (-1, { zeroHistory with mapid := G_ascii_check ['a', 'b', 'c'] }) :=
  read_history_partial_record ['a', 'b', 'c', '\n'] ['a', 'b', 'c'] []
    (by decide) rfl

theorem takeWhile_append_stop (p : Char → Bool) (s : Str) (x : Char)
    (r : Str) (hs : ∀ c ∈ s, p c = true) (hx : p x = false) :
    (s ++ x :: r).takeWhile p = s := by
  induction s with
  | nil => simp [List.takeWhile_cons, hx]
  | cons a t ih =>
    have ha := hs a (by simp)
    have ht := ih (fun c hc => hs c (by simp [hc]))
    simp [List.takeWhile_cons, ha, ht]

/-- A newline-free line of at most RECORD_LEN - 1 characters followed by
its newline is read back whole by G_getl, leaving exactly the rest of the
stream. -/
theorem G_getl_line (s rest : Str) (hnl : ∀ c ∈ s, (c != '\n') = true)
    (hlen : s.length ≤ 79) :
    G_getl RECORD_LEN ((s ++ ['\n']) ++ rest) = some (s, rest) := by
  have hshape : (s ++ ['\n']) ++ rest = s ++ '\n' :: rest := by simp
  rw [hshape]
  unfold G_getl
  rw [if_neg (by simp)]
  rw [takeWhile_append_stop _ s '\n' rest hnl (by decide)]
  have ht : s.take (RECORD_LEN - 1) = s := by
    apply List.take_of_length_le
    have : RECORD_LEN = 80 := rfl
    omega
  have hd : (s ++ '\n' :: rest).drop s.length = '\n' :: rest :=
    List.drop_left s ('\n' :: rest)
  rw [ht, hd]
  simp

theorem ascii_check_of_printable :
    ∀ s : Str, (∀ c ∈ s, printableChar c = true) → G_ascii_check s = s := by
  intro s
  induction s with
  | nil => intro _; rfl
  | cons a t ih =>
    intro h
    have ha := h a (by simp)
    have ht := ih (fun c hc => h c (by simp [hc]))
    simp only [G_ascii_check, List.map_cons, ha, if_true]
    simp only [G_ascii_check] at ht
    rw [ht]

/-- A field or comment line that survives the round trip: short enough
for one record line, newline-free, and printable (so sanitization leaves
it unchanged). -/
def lineOK (s : Str) : Prop :=
  s.length ≤ 79 ∧ (∀ c ∈ s, (c != '\n') = true) ∧
    (∀ c ∈ s, printableChar c = true)

instance (s : Str) : Decidable (lineOK s) := by
  unfold lineOK
  infer_instance

theorem writeEd_stop (ed : Nat → Str) (i cnt : Nat) (h : ¬ i < cnt) :
    writeEd ed i cnt = [] := by
  rw [writeEd, if_neg h]

theorem writeEd_step (ed : Nat → Str) (i cnt : Nat) (h : i < cnt) :
    writeEd ed i cnt = (ed i ++ ['\n']) ++ writeEd ed (i + 1) cnt := by
  conv_lhs => rw [writeEd]
  rw [if_pos h]

theorem readEdLoop_nil (ed0 : Nat → Str) (c : Nat) :
    readEdLoop [] ed0 c = (ed0, c) := by
  rw [readEdLoop]
  split <;> rfl

/-- Reading back the comment lines the writer emitted, starting at index
c, fills slots c to cnt - 1 with the original lines, leaves the lower
slots as they were, and ends with count cnt. -/
theorem readEdLoop_writeEd :
    ∀ n (ed ed0 : Nat → Str) (c cnt : Nat), cnt - c ≤ n → c ≤ cnt →
      cnt ≤ MAXEDLINES →
      (∀ i, c ≤ i → i < cnt → lineOK (ed i)) →
      (readEdLoop (writeEd ed c cnt) ed0 c).2 = cnt ∧
      (∀ i, c ≤ i → i < cnt →
        (readEdLoop (writeEd ed c cnt) ed0 c).1 i = ed i) ∧
      (∀ i, i < c → (readEdLoop (writeEd ed c cnt) ed0 c).1 i = ed0 i) := by
  have h50 : MAXEDLINES = 50 := rfl
  intro n
  induction n with
  | zero =>
    intro ed ed0 c cnt hn hc hcnt hok
    have hceq : c = cnt := by omega
    subst hceq
    rw [writeEd_stop ed c c (by omega), readEdLoop_nil]
    exact ⟨rfl, fun i hi1 hi2 => absurd hi2 (by omega), fun i _ => rfl⟩
  | succ n ih =>
    intro ed ed0 c cnt hn hc hcnt hok
    by_cases hcc : c < cnt
    · obtain ⟨hlen, hnl, hpr⟩ := hok c (le_refl c) hcc
      have hred : readEdLoop (writeEd ed c cnt) ed0 c =
          readEdLoop (writeEd ed (c + 1) cnt)
            (Function.update ed0 c (G_ascii_check (ed c))) (c + 1) := by
        conv_lhs => rw [writeEd_step ed c cnt hcc, readEdLoop]
        rw [if_pos (by omega), G_getl_line (ed c) _ hnl hlen]
      rw [hred, ascii_check_of_printable (ed c) hpr]
      obtain ⟨hA, hB, hC⟩ := ih ed (Function.update ed0 c (ed c)) (c + 1)
        cnt (by omega) (by omega) hcnt (fun i hi1 hi2 => hok i (by omega) hi2)
      refine ⟨hA, ?_, ?_⟩
      · intro i hi1 hi2
        by_cases hic : i = c
        · subst hic
          rw [hC i (by omega), Function.update_same]
        · rw [hB i (by omega) hi2]
      · intro i hi1
        rw [hC i (by omega)]
        exact Function.update_noteq (by omega) _ _
    · have hceq : c = cnt := by omega
      subst hceq
      rw [writeEd_stop ed c c (by omega), readEdLoop_nil]
      exact ⟨rfl, fun i hi1 hi2 => absurd hi2 (by omega), fun i _ => rfl⟩

/-- C9: for a record whose eight fields and comment lines are printable,
newline-free and within the per-line length bound, with a comment count
up to capacity, writing with G_write_history and reading back with
G_read_history succeeds and reproduces all eight fields byte-for-byte
and the full comment log in order. -/
theorem write_read_history_roundtrip (hist : History)
    (hf1 : lineOK hist.mapid) (hf2 : lineOK hist.title)
    (hf3 : lineOK hist.mapset) (hf4 : lineOK hist.creator)
    (hf5 : lineOK hist.maptype) (hf6 : lineOK hist.datsrc_1)
    (hf7 : lineOK hist.datsrc_2) (hf8 : lineOK hist.keywrd)
    (hcnt : hist.edlinecnt ≤ MAXEDLINES)
    (hed : ∀ i, i < hist.edlinecnt → lineOK (hist.edhist i)) :
    G_write_history true hist = (0, historyFile hist) ∧
    (G_read_history (some (historyFile hist))).1 = 0 ∧
    (G_read_history (some (historyFile hist))).2.mapid = hist.mapid ∧
    (G_read_history (some (historyFile hist))).2.title = hist.title ∧
    (G_read_history (some (historyFile hist))).2.mapset = hist.mapset ∧
    (G_read_history (some (historyFile hist))).2.creator = hist.creator ∧
    (G_read_history (some (historyFile hist))).2.maptype = hist.maptype ∧
    (G_read_history (some (historyFile hist))).2.datsrc_1 =
      hist.datsrc_1 ∧
    (G_read_history (some (historyFile hist))).2.datsrc_2 =
      hist.datsrc_2 ∧
    (G_read_history (some (historyFile hist))).2.keywrd = hist.keywrd ∧
    (G_read_history (some (historyFile hist))).2.edlinecnt =
      hist.edlinecnt ∧
    (∀ i, i < hist.edlinecnt →
      (G_read_history (some (historyFile hist))).2.edhist i =
        hist.edhist i) := by
  have key : G_read_history (some (historyFile hist)) =
      (0, { mapid := G_ascii_check hist.mapid,
            title := G_ascii_check hist.title,
            mapset := G_ascii_check hist.mapset,
            creator := G_ascii_check hist.creator,
            maptype := G_ascii_check hist.maptype,
            datsrc_1 := G_ascii_check hist.datsrc_1,
            datsrc_2 := G_ascii_check hist.datsrc_2,
            keywrd := G_ascii_check hist.keywrd,
            edhist := (readEdLoop (writeEd hist.edhist 0 hist.edlinecnt)
              zeroHistory.edhist 0).1,
            edlinecnt := (readEdLoop (writeEd hist.edhist 0 hist.edlinecnt)
              zeroHistory.edhist 0).2 }) := by
    unfold G_read_history historyFile
    simp only []
    rw [G_getl_line _ _ hf1.2.1 hf1.1]
    simp only []
    rw [G_getl_line _ _ hf2.2.1 hf2.1]
    simp only []
    rw [G_getl_line _ _ hf3.2.1 hf3.1]
    simp only []
    rw [G_getl_line _ _ hf4.2.1 hf4.1]
    simp only []
    rw [G_getl_line _ _ hf5.2.1 hf5.1]
    simp only []
    rw [G_getl_line _ _ hf6.2.1 hf6.1]
    simp only []
    rw [G_getl_line _ _ hf7.2.1 hf7.1]
    simp only []
    rw [G_getl_line _ _ hf8.2.1 hf8.1]
  obtain ⟨hA, hB, hC⟩ := readEdLoop_writeEd hist.edlinecnt hist.edhist
    zeroHistory.edhist 0 hist.edlinecnt (by omega) (by omega) hcnt
    (fun i hi1 hi2 => hed i hi2)
  rw [key]
  refine ⟨rfl, rfl, ?_, ?_, ?_, ?_, ?_, ?_, ?_, ?_, hA, ?_⟩
  · exact ascii_check_of_printable _ hf1.2.2
  · exact ascii_check_of_printable _ hf2.2.2
  · exact ascii_check_of_printable _ hf3.2.2
  · exact ascii_check_of_printable _ hf4.2.2
  · exact ascii_check_of_printable _ hf5.2.2
  · exact ascii_check_of_printable _ hf6.2.2
  · exact ascii_check_of_printable _ hf7.2.2
  · exact ascii_check_of_printable _ hf8.2.2
  · intro i hi
    exact hB i (by omega) hi

/-- A small concrete record with one comment line, for exercising the
round trip. -/
def sampleHistory : History :=
  { mapid := ['m'], title := ['t'], mapset := ['s'], creator := ['c'],
    maptype := ['r'], datsrc_1 := [], datsrc_2 := ['d'], keywrd := ['k'],
    edhist := fun i => if i = 0 then ['e', '1'] else [], edlinecnt := 1 }

theorem write_read_history_roundtrip_witness :
    G_write_history true sampleHistory = (0, historyFile sampleHistory) ∧
    (G_read_history (some (historyFile sampleHistory))).1 = 0 ∧
    (G_read_history (some (historyFile sampleHistory))).2.mapid =
      sampleHistory.mapid ∧
    (G_read_history (some (historyFile sampleHistory))).2.title =
      sampleHistory.title ∧
    (G_read_history (some (historyFile sampleHistory))).2.mapset =
      sampleHistory.mapset ∧
    (G_read_history (some (historyFile sampleHistory))).2.creator =
      sampleHistory.creator ∧
    (G_read_history (some (historyFile sampleHistory))).2.maptype =
      sampleHistory.maptype ∧
    (G_read_history (some (historyFile sampleHistory))).2.datsrc_1 =
      sampleHistory.datsrc_1 ∧
    (G_read_history (some (historyFile sampleHistory))).2.datsrc_2 =
      sampleHistory.datsrc_2 ∧
    (G_read_history (some (historyFile sampleHistory))).2.keywrd =
      sampleHistory.keywrd ∧
    (G_read_history (some (historyFile sampleHistory))).2.edlinecnt =
      sampleHistory.edlinecnt ∧
    (∀ i, i < sampleHistory.edlinecnt →
      (G_read_history (some (historyFile sampleHistory))).2.edhist i =
        sampleHistory.edhist i) :=
  write_read_history_roundtrip sampleHistory (by decide) (by decide)
    (by decide) (by decide) (by decide) (by decide) (by decide) (by decide)
    (by decide) (by decide)
